import Mathlib

/-!
Verification of the client-side transaction coordinator of the
python-spanner repository: the transaction lifecycle state machine, the
mutation buffer, the per-call sequence-number stamping, the tag-override
policy for outbound requests, and the partial-failure semantics of batched
statement execution.

The implementation module of the Transaction class is not shipped with the
sources at hand (only its unit tests are), so the operations below are
modelled from the specification, pinned where possible by the behaviour the
unit tests in tests/unit/test_transaction.py assert.
-/

/-- Kind of a buffered write operation. -/
inductive MutationKind where
  | insert
  | update
  | insert_or_update
  | replace
  | delete
deriving DecidableEq, Repr

/-- Modelled from the spec: a Mutation is an operation kind, a target table,
a column list or key set, and row values, immutable once appended. -/
structure Mutation where
  kind : MutationKind
  table : String
  columns : List String := []
  values : List (List String) := []
deriving DecidableEq, Repr

/-- Modelled from the spec: a single DML statement of a batch, optionally
carrying its own parameter map and parameter-type map. -/
structure Statement where
  sql : String
  params : List (String × String) := []
  param_types : List (String × String) := []
deriving DecidableEq, Repr

/-- Modelled from the spec: per-call statement execution options with the
recognized fields request_tag, transaction_tag and priority. -/
structure RequestOptions where
  request_tag : Option String := none
  transaction_tag : Option String := none
  priority : Option Nat := none
deriving DecidableEq, Repr

/-- Per-statement statistics of a result set: the affected-row count. -/
structure ResultSetStats where
  row_count_exact : Nat
deriving DecidableEq, Repr

/-- A result set as returned inside a batch DML response. -/
structure ResultSet where
  stats : ResultSetStats
deriving DecidableEq, Repr

/-- Modelled from the spec: the response of the batched statement call; an
overall status plus one result set per completed statement.  Status code 0
denotes success, any other code a reported failure. -/
structure ExecuteBatchDmlResponse where
  status : Nat
  result_sets : List ResultSet
deriving DecidableEq, Repr

/-- Errors surfaced by transaction operations: lifecycle misuse raised
synchronously before any network call, or a propagated transport error. -/
inductive TxnError where
  | stateError (msg : String)
  | rpcError (msg : String)
deriving DecidableEq, Repr

/-- The payload of one outbound request, as observed by the backend stub. -/
inductive OutboundRequest where
  | beginTxn
  | commitReq (mutations : List Mutation) (transaction_id : String)
      (options : RequestOptions)
  | rollbackReq (transaction_id : String)
  | executeSqlReq (sql : String) (transaction_id : Option String)
      (seqno : Nat) (options : RequestOptions)
  | batchDmlReq (statements : List Statement) (transaction_id : Option String)
      (seqno : Nat) (options : RequestOptions)
deriving DecidableEq, Repr

/-- Modelled from the spec: the Transaction record — backend-assigned
identity (absent until begun), terminal-state flags, the monotonically
increasing per-call counter `seqno`, the ordered mutation buffer, and the
optional per-transaction tag.  `committed` holds the backend commit
timestamp once a commit succeeded. -/
structure Transaction where
  transaction_id : Option String := none
  committed : Option Nat := none
  rolled_back : Bool := false
  seqno : Nat := 0
  mutations : List Mutation := []
  transaction_tag : Option String := none
deriving DecidableEq, Repr

/-- Outcome of an operation that does not touch the owning Session: the
returned value or error, the updated transaction, and the list of outbound
requests the call issued. -/
structure RpcOutcome (α : Type) where
  res : Except TxnError α
  txn : Transaction
  requests : List OutboundRequest

/-- Outcome of an operation that may detach the transaction from its owning
Session: `attached` reports whether the Session still references it. -/
structure SessionOutcome (α : Type) where
  res : Except TxnError α
  txn : Transaction
  attached : Bool
  requests : List OutboundRequest

namespace Transaction

/-- Modelled from the spec: the `_check_state` guard — a committed or
rolled-back transaction accepts no further operation. -/
def check_state (t : Transaction) : Option TxnError :=
  if t.committed.isSome then some (.stateError "Transaction is already committed")
  else if t.rolled_back then some (.stateError "Transaction is already rolled back")
  else none

/-- Modelled from the spec: `begin()` is valid only when no identity was
assigned and the transaction is not terminal; on success it stores the
backend-assigned identity.  The StateError cases issue no request. -/
def begin (t : Transaction) (backend : Except String String) :
    RpcOutcome String :=
  if t.transaction_id.isSome then
    ⟨.error (.stateError "Transaction already begun"), t, []⟩
  else
    match t.check_state with
    | some e => ⟨.error e, t, []⟩
    | none =>
      match backend with
      | .error e => ⟨.error (.rpcError e), t, [.beginTxn]⟩
      | .ok i => ⟨.ok i, { t with transaction_id := some i }, [.beginTxn]⟩

/-- Modelled from the spec: `rollback()` — with no backend identity it marks
the transaction rolled back locally and issues no request; with an identity
it issues the rollback call, and only on success marks the transaction
rolled back and detaches it from the Session. -/
def rollback (t : Transaction) (attached : Bool)
    (backend : Except String Unit) : SessionOutcome Unit :=
  match t.check_state with
  | some e => ⟨.error e, t, attached, []⟩
  | none =>
    match t.transaction_id with
    | none => ⟨.ok (), { t with rolled_back := true }, attached, []⟩
    | some i =>
      match backend with
      | .error e => ⟨.error (.rpcError e), t, attached, [.rollbackReq i]⟩
      | .ok _ => ⟨.ok (), { t with rolled_back := true }, false, [.rollbackReq i]⟩

/-- Modelled from the spec: append a Mutation to the buffer; permitted while
the transaction is not terminal, StateError afterwards. -/
def buffer_mutation (t : Transaction) (m : Mutation) :
    Except TxnError Unit × Transaction :=
  match t.check_state with
  | some e => (.error e, t)
  | none => (.ok (), { t with mutations := t.mutations ++ [m] })

/-- Modelled from the spec: `insert(...)` appends an insert Mutation. -/
def insert (t : Transaction) (table : String) (columns : List String)
    (values : List (List String)) : Except TxnError Unit × Transaction :=
  t.buffer_mutation ⟨.insert, table, columns, values⟩

/-- Modelled from the spec: `update(...)` appends an update Mutation. -/
def update (t : Transaction) (table : String) (columns : List String)
    (values : List (List String)) : Except TxnError Unit × Transaction :=
  t.buffer_mutation ⟨.update, table, columns, values⟩

/-- Modelled from the spec: `insert_or_update(...)` appends an
insert-or-update Mutation. -/
def insert_or_update (t : Transaction) (table : String) (columns : List String)
    (values : List (List String)) : Except TxnError Unit × Transaction :=
  t.buffer_mutation ⟨.insert_or_update, table, columns, values⟩

/-- Modelled from the spec: `replace(...)` appends a replace Mutation. -/
def replace (t : Transaction) (table : String) (columns : List String)
    (values : List (List String)) : Except TxnError Unit × Transaction :=
  t.buffer_mutation ⟨.replace, table, columns, values⟩

/-- Modelled from the spec: `delete(...)` appends a delete Mutation whose
key set is carried in the values field. -/
def delete (t : Transaction) (table : String) (keys : List (List String)) :
    Except TxnError Unit × Transaction :=
  t.buffer_mutation ⟨.delete, table, [], keys⟩

/-- Dispatch one Mutation record through the operation of its kind. -/
def apply_mutation (t : Transaction) (m : Mutation) :
    Except TxnError Unit × Transaction :=
  match m.kind with
  | .insert => t.insert m.table m.columns m.values
  | .update => t.update m.table m.columns m.values
  | .insert_or_update => t.insert_or_update m.table m.columns m.values
  | .replace => t.replace m.table m.columns m.values
  | .delete => t.buffer_mutation m

/-- Apply a list of mutation-append operations in order, keeping the
transaction produced by each step. -/
def apply_mutations (t : Transaction) : List Mutation → Transaction
  | [] => t
  | m :: ms => apply_mutations (t.apply_mutation m).2 ms

/-- Modelled from the spec: a transaction tag, if set on the transaction, is
force-applied to the tag field of the outbound request options, overriding
any transaction-tag value supplied inline by the caller. -/
def apply_transaction_tag (t : Transaction) (o : RequestOptions) :
    RequestOptions :=
  { o with transaction_tag :=
      if t.transaction_tag.isSome then t.transaction_tag else o.transaction_tag }

/-- Request options as sent by `commit(...)`: the transaction-tag override
is applied and any per-call request tag is cleared. -/
def commit_request_options (t : Transaction) (o : RequestOptions) :
    RequestOptions :=
  { t.apply_transaction_tag o with request_tag := none }

/-- Issue the commit call proper for a transaction that holds identity `i`,
appending the commit request to the requests already issued by the same
logical `commit(...)` invocation. -/
def commit_rpc (t : Transaction) (attached : Bool)
    (request_options : RequestOptions) (backend_commit : Except String Nat)
    (prior : List OutboundRequest) (i : String) : SessionOutcome Nat :=
  match backend_commit with
  | .error e =>
    ⟨.error (.rpcError e), t, attached,
      prior ++ [.commitReq t.mutations i (t.commit_request_options request_options)]⟩
  | .ok ts =>
    ⟨.ok ts, { t with committed := some ts }, false,
      prior ++ [.commitReq t.mutations i (t.commit_request_options request_options)]⟩

/-- Modelled from the spec and pinned by the unit tests: `commit(...)` —
StateError in a terminal state; with no identity and an empty mutation
buffer it raises StateError without any request; with no identity and a
non-empty buffer it implicitly begins as part of the same call; on success
it records the commit timestamp and detaches from the Session; on failure
the transaction is not marked committed and stays attached. -/
def commit (t : Transaction) (attached : Bool)
    (request_options : RequestOptions) (backend_begin : Except String String)
    (backend_commit : Except String Nat) : SessionOutcome Nat :=
  match t.check_state with
  | some e => ⟨.error e, t, attached, []⟩
  | none =>
    match t.transaction_id with
    | some i => t.commit_rpc attached request_options backend_commit [] i
    | none =>
      if t.mutations.isEmpty then
        ⟨.error (.stateError "Transaction is not begun"), t, attached, []⟩
      else
        match backend_begin with
        | .error e => ⟨.error (.rpcError e), t, attached, [.beginTxn]⟩
        | .ok i =>
          Transaction.commit_rpc { t with transaction_id := some i } attached
            request_options backend_commit [.beginTxn] i

/-- Modelled from the spec: `execute_update(...)` stamps the call with the
current `seqno`, increments the counter exactly once per invocation — also
when the underlying attempt fails — and returns the affected-row count. -/
def execute_update (t : Transaction) (sql : String)
    (request_options : RequestOptions) (backend : Except String Nat) :
    RpcOutcome Nat :=
  match t.check_state with
  | some e => ⟨.error e, t, []⟩
  | none =>
    match backend with
    | .error e =>
      ⟨.error (.rpcError e), { t with seqno := t.seqno + 1 },
        [.executeSqlReq sql t.transaction_id t.seqno (t.apply_transaction_tag request_options)]⟩
    | .ok n =>
      ⟨.ok n, { t with seqno := t.seqno + 1 },
        [.executeSqlReq sql t.transaction_id t.seqno (t.apply_transaction_tag request_options)]⟩

/-- Modelled from the spec: `batch_update(statements)` stamps the call with
the current `seqno`, increments it once, sends the ordered statement list in
one call, and decomposes the response into the pair of its status and the
per-statement affected-row counts of the result sets it carries. -/
def batch_update (t : Transaction) (statements : List Statement)
    (request_options : RequestOptions)
    (backend : Except String ExecuteBatchDmlResponse) :
    RpcOutcome (Nat × List Nat) :=
  match t.check_state with
  | some e => ⟨.error e, t, []⟩
  | none =>
    match backend with
    | .error e =>
      ⟨.error (.rpcError e), { t with seqno := t.seqno + 1 },
        [.batchDmlReq statements t.transaction_id t.seqno (t.apply_transaction_tag request_options)]⟩
    | .ok resp =>
      ⟨.ok (resp.status, resp.result_sets.map (fun rs => rs.stats.row_count_exact)),
        { t with seqno := t.seqno + 1 },
        [.batchDmlReq statements t.transaction_id t.seqno (t.apply_transaction_tag request_options)]⟩

end Transaction

/-- One logical statement-execution call: either a single DML execution or
a batched one, together with the backend behaviour for its attempt. -/
inductive DmlCall where
  | exec (sql : String) (options : RequestOptions) (backend : Except String Nat)
  | batch (statements : List Statement) (options : RequestOptions)
      (backend : Except String ExecuteBatchDmlResponse)

/-- Transaction produced by one logical statement-execution call. -/
def dml_txn (t : Transaction) : DmlCall → Transaction
  | .exec sql o b => (t.execute_update sql o b).txn
  | .batch s o b => (t.batch_update s o b).txn

/-- Outbound requests issued by one logical statement-execution call. -/
def dml_requests (t : Transaction) : DmlCall → List OutboundRequest
  | .exec sql o b => (t.execute_update sql o b).requests
  | .batch s o b => (t.batch_update s o b).requests

/-- Run a sequence of logical statement-execution calls, threading the
transaction state through them. -/
def run_dml (t : Transaction) : List DmlCall → Transaction
  | [] => t
  | c :: cs => run_dml (dml_txn t c) cs

/-- The seqno stamped on an outbound request, when it carries one. -/
def req_seqno : OutboundRequest → Option Nat
  | .executeSqlReq _ _ s _ => some s
  | .batchDmlReq _ _ s _ => some s
  | _ => none

/-- The request options carried by an outbound request, when any. -/
def req_options : OutboundRequest → Option RequestOptions
  | .commitReq _ _ o => some o
  | .executeSqlReq _ _ _ o => some o
  | .batchDmlReq _ _ _ o => some o
  | _ => none

/-- The per-call request tag carried by an outbound request, when any. -/
def req_request_tag (r : OutboundRequest) : Option (Option String) :=
  (req_options r).map RequestOptions.request_tag

/-- Modelled from the spec: a backend batch response that reports failure at
0-based statement index `k` carries a non-success status code and result
sets only for the `k` statements that completed before the failing one. -/
def batchFailureResponse (err_code : Nat) (counts : List Nat) (k : Nat) :
    ExecuteBatchDmlResponse :=
  { status := err_code, result_sets := (counts.take k).map (fun n => ⟨⟨n⟩⟩) }

/-- Modelled from the spec: the scoped-use pattern — normal exit of the
scope triggers `commit()`, abnormal exit triggers `rollback()` (and then
re-raises the original error, which the model leaves to the caller). -/
def scope_exit (t : Transaction) (attached : Bool)
    (request_options : RequestOptions) (abnormal : Bool)
    (backend_begin : Except String String) (backend_commit : Except String Nat)
    (backend_rollback : Except String Unit) : SessionOutcome Unit :=
  if abnormal then
    t.rollback attached backend_rollback
  else
    let r := t.commit attached request_options backend_begin backend_commit
    ⟨r.res.map (fun _ => ()), r.txn, r.attached, r.requests⟩

/-- A live transaction — neither committed nor rolled back — passes the
state guard. -/
theorem check_state_eq_none (t : Transaction) (h1 : t.committed = none)
    (h2 : t.rolled_back = false) : t.check_state = none := by
  simp [Transaction.check_state, h1, h2]

/-- On a live transaction, dispatching one Mutation record appends exactly
that record to the buffer and changes nothing else. -/
theorem apply_mutation_live (t : Transaction) (m : Mutation)
    (h1 : t.committed = none) (h2 : t.rolled_back = false) :
    (t.apply_mutation m).2 = { t with mutations := t.mutations ++ [m] } := by
  obtain ⟨k, tb, cs, vs⟩ := m
  have hcs := check_state_eq_none t h1 h2
  cases k <;>
    simp [Transaction.apply_mutation, Transaction.insert, Transaction.update,
      Transaction.insert_or_update, Transaction.replace,
      Transaction.buffer_mutation, hcs]

/-- On a live transaction, applying a list of mutation-append operations
appends exactly that list, in order, and changes nothing else. -/
theorem apply_mutations_live (t : Transaction) (ms : List Mutation)
    (h1 : t.committed = none) (h2 : t.rolled_back = false) :
    Transaction.apply_mutations t ms = { t with mutations := t.mutations ++ ms } := by
  induction ms generalizing t with
  | nil => simp [Transaction.apply_mutations]
  | cons m ms ih =>
    rw [Transaction.apply_mutations, apply_mutation_live t m h1 h2,
      ih { t with mutations := t.mutations ++ [m] } h1 h2]
    simp

/-- One logical statement-execution call on a live transaction increments
`seqno` exactly once and changes nothing else, for a succeeding and for a
failing backend attempt alike. -/
theorem dml_txn_live (t : Transaction) (c : DmlCall)
    (h1 : t.committed = none) (h2 : t.rolled_back = false) :
    dml_txn t c = { t with seqno := t.seqno + 1 } := by
  have hcs := check_state_eq_none t h1 h2
  cases c with
  | exec sql o b =>
    cases b <;> simp [dml_txn, Transaction.execute_update, hcs]
  | batch s o b =>
    cases b <;> simp [dml_txn, Transaction.batch_update, hcs]

/-- One logical statement-execution call on a live transaction issues
exactly one outbound request, stamped with the pre-call `seqno`. -/
theorem dml_requests_stamp (t : Transaction) (c : DmlCall)
    (h1 : t.committed = none) (h2 : t.rolled_back = false) :
    (dml_requests t c).map req_seqno = [some t.seqno] := by
  have hcs := check_state_eq_none t h1 h2
  cases c with
  | exec sql o b =>
    cases b <;> simp [dml_requests, Transaction.execute_update, hcs, req_seqno]
  | batch s o b =>
    cases b <;> simp [dml_requests, Transaction.batch_update, hcs, req_seqno]

/-- Running a sequence of logical statement-execution calls on a live
transaction advances `seqno` by exactly the number of calls. -/
theorem run_dml_seqno (t : Transaction) (cs : List DmlCall)
    (h1 : t.committed = none) (h2 : t.rolled_back = false) :
    (run_dml t cs).seqno = t.seqno + cs.length := by
  induction cs generalizing t with
  | nil => simp [run_dml]
  | cons c cs ih =>
    rw [run_dml, dml_txn_live t c h1 h2,
      ih { t with seqno := t.seqno + 1 } h1 h2]
    simp
    omega

/-- C1: for every transaction and every sequence of N logical
execute_update or batch_update calls, each succeeding or failing, `seqno`
after those calls equals its initial value plus N; each call stamps the
pre-call `seqno` on its outbound request and increments the counter exactly
once, also when the underlying call raises an error. -/
theorem seqno_counts_logical_calls (t : Transaction) (cs : List DmlCall)
    (h1 : t.committed = none) (h2 : t.rolled_back = false) :
    (run_dml t cs).seqno = t.seqno + cs.length ∧
    ∀ c : DmlCall, (dml_txn t c).seqno = t.seqno + 1 ∧
      (dml_requests t c).map req_seqno = [some t.seqno] := by
  refine ⟨run_dml_seqno t cs h1 h2, fun c => ⟨?_, dml_requests_stamp t c h1 h2⟩⟩
  rw [dml_txn_live t c h1 h2]

/-- C1 witness: two calls — a failing single-statement execution and a
succeeding batch — advance `seqno` from 0 to 2, both stamped as claimed. -/
theorem seqno_counts_logical_calls_witness :
    ({} : Transaction).committed = none ∧
    ({} : Transaction).rolled_back = false ∧
    ((run_dml ({} : Transaction)
        [DmlCall.exec "UPDATE citizens SET age = 32" {} (.error "unavailable"),
         DmlCall.batch [⟨"DELETE FROM citizens", [], []⟩] {} (.ok ⟨0, [⟨⟨2⟩⟩]⟩)]).seqno
        = ({} : Transaction).seqno + 2 ∧
      ∀ c : DmlCall, (dml_txn ({} : Transaction) c).seqno = ({} : Transaction).seqno + 1 ∧
        (dml_requests ({} : Transaction) c).map req_seqno
          = [some ({} : Transaction).seqno]) :=
  ⟨rfl, rfl,
    seqno_counts_logical_calls {}
      [DmlCall.exec "UPDATE citizens SET age = 32" {} (.error "unavailable"),
       DmlCall.batch [⟨"DELETE FROM citizens", [], []⟩] {} (.ok ⟨0, [⟨⟨2⟩⟩]⟩)]
      rfl rfl⟩

/-- C5: calling `begin()` when the transaction is already begun, already
committed, or already rolled back leaves the transaction unchanged, issues
zero outbound requests, and returns a StateError. -/
theorem begin_invalid_state_no_rpc (t : Transaction) (b : Except String String)
    (h : t.transaction_id.isSome ∨ t.committed.isSome ∨ t.rolled_back = true) :
    (t.begin b).txn = t ∧ (t.begin b).requests = [] ∧
    ∃ msg, (t.begin b).res = .error (.stateError msg) := by
  unfold Transaction.begin
  by_cases hid : t.transaction_id.isSome
  · simp [hid]
  · rcases h with h | h | h
    · exact absurd h hid
    · simp [hid, Transaction.check_state, h]
    · by_cases hc : t.committed.isSome <;>
        simp [hid, Transaction.check_state, h, hc]

/-- C5 witness: a second `begin()` on an already-begun transaction is a
StateError with no request and no state change. -/
theorem begin_invalid_state_no_rpc_witness :
    (({ transaction_id := some "DEADBEEF" } : Transaction).transaction_id.isSome ∨
      ({ transaction_id := some "DEADBEEF" } : Transaction).committed.isSome ∨
      ({ transaction_id := some "DEADBEEF" } : Transaction).rolled_back = true) ∧
    ((({ transaction_id := some "DEADBEEF" } : Transaction).begin (.ok "x")).txn
        = { transaction_id := some "DEADBEEF" } ∧
      (({ transaction_id := some "DEADBEEF" } : Transaction).begin (.ok "x")).requests = [] ∧
      ∃ msg, (({ transaction_id := some "DEADBEEF" } : Transaction).begin (.ok "x")).res
        = .error (.stateError msg)) :=
  ⟨Or.inl rfl, begin_invalid_state_no_rpc { transaction_id := some "DEADBEEF" }
    (.ok "x") (Or.inl rfl)⟩

/-- C6: `rollback()` on a transaction that was never begun marks it rolled
back locally, returns success, and issues zero outbound requests. -/
theorem rollback_not_begun_local_noop (t : Transaction) (attached : Bool)
    (b : Except String Unit) (h1 : t.committed = none)
    (h2 : t.rolled_back = false) (hid : t.transaction_id = none) :
    t.rollback attached b
      = ⟨.ok (), { t with rolled_back := true }, attached, []⟩ := by
  simp [Transaction.rollback, check_state_eq_none t h1 h2, hid]

/-- C6 witness: rolling back a fresh transaction is a local no-op. -/
theorem rollback_not_begun_local_noop_witness :
    ({} : Transaction).committed = none ∧
    ({} : Transaction).rolled_back = false ∧
    ({} : Transaction).transaction_id = none ∧
    ({} : Transaction).rollback true (.ok ())
      = ⟨.ok (), { ({} : Transaction) with rolled_back := true }, true, []⟩ :=
  ⟨rfl, rfl, rfl, rollback_not_begun_local_noop {} true (.ok ()) rfl rfl rfl⟩

/-- C7: on a begun transaction, a rollback call whose RPC fails with a
transport error leaves the transaction unchanged — in particular not marked
rolled back — keeps the Session attachment, and propagates the error
unchanged. -/
theorem rollback_transport_error_propagates (t : Transaction) (attached : Bool)
    (i e : String) (h1 : t.committed = none) (h2 : t.rolled_back = false)
    (hid : t.transaction_id = some i) :
    t.rollback attached (.error e)
      = ⟨.error (.rpcError e), t, attached, [.rollbackReq i]⟩ := by
  simp [Transaction.rollback, check_state_eq_none t h1 h2, hid]

/-- C7 witness: a failing rollback RPC on a begun transaction propagates
the error and does not mark the transaction rolled back. -/
theorem rollback_transport_error_propagates_witness :
    ({ transaction_id := some "DEADBEEF" } : Transaction).committed = none ∧
    ({ transaction_id := some "DEADBEEF" } : Transaction).rolled_back = false ∧
    ({ transaction_id := some "DEADBEEF" } : Transaction).transaction_id = some "DEADBEEF" ∧
    ({ transaction_id := some "DEADBEEF" } : Transaction).rollback true (.error "other error")
      = ⟨.error (.rpcError "other error"), { transaction_id := some "DEADBEEF" },
          true, [.rollbackReq "DEADBEEF"]⟩ :=
  ⟨rfl, rfl, rfl,
    rollback_transport_error_propagates { transaction_id := some "DEADBEEF" }
      true "DEADBEEF" "other error" rfl rfl rfl⟩

/-- C2 counterexample: `commit()` on a transaction that was never begun and
has no queued mutations rejects the call with a StateError, issuing no
request, although the claim states commit is valid in that state. -/
theorem commit_not_begun_is_rejected :
    (Transaction.commit {} true {} (.ok "txn-1") (.ok 7)).res
      = .error (.stateError "Transaction is not begun") ∧
    (Transaction.commit {} true {} (.ok "txn-1") (.ok 7)).requests = [] :=
  ⟨rfl, rfl⟩

/-- C2 amended: on a never-begun transaction, `commit()` with an empty
mutation buffer raises a StateError without issuing any request, while with
a non-empty buffer it implicitly begins as part of the same call and then
commits the buffered mutations. -/
theorem commit_not_begun_behaviour (t : Transaction) (attached : Bool)
    (o : RequestOptions) (bb : Except String String) (bc : Except String Nat)
    (i : String) (ts : Nat) (h1 : t.committed = none)
    (h2 : t.rolled_back = false) (hid : t.transaction_id = none) :
    (t.mutations = [] →
      t.commit attached o bb bc
        = ⟨.error (.stateError "Transaction is not begun"), t, attached, []⟩) ∧
    (t.mutations ≠ [] →
      (t.commit attached o (.ok i) (.ok ts)).res = .ok ts ∧
      (t.commit attached o (.ok i) (.ok ts)).txn.committed = some ts ∧
      (t.commit attached o (.ok i) (.ok ts)).requests
        = [.beginTxn, .commitReq t.mutations i (t.commit_request_options o)]) := by
  have hcs := check_state_eq_none t h1 h2
  constructor
  · intro hm
    simp [Transaction.commit, hcs, hid, hm]
  · intro hm
    simp [Transaction.commit, hcs, hid, List.isEmpty_iff, hm,
      Transaction.commit_rpc, Transaction.commit_request_options,
      Transaction.apply_transaction_tag]

/-- C2 amended witness: committing a never-begun transaction holding one
mutation implicitly begins and commits it; the empty-buffer branch holds
vacuously at this input. -/
theorem commit_not_begun_behaviour_witness :
    ({ mutations := [⟨.insert, "citizens", ["email"], [["a"]]⟩] } : Transaction).committed
        = none ∧
    ({ mutations := [⟨.insert, "citizens", ["email"], [["a"]]⟩] } : Transaction).rolled_back
        = false ∧
    ({ mutations := [⟨.insert, "citizens", ["email"], [["a"]]⟩] } : Transaction).transaction_id
        = none ∧
    ((({ mutations := [⟨.insert, "citizens", ["email"], [["a"]]⟩] } : Transaction).mutations
          = [] →
        Transaction.commit { mutations := [⟨.insert, "citizens", ["email"], [["a"]]⟩] }
            true {} (.error "down") (.ok 9)
          = ⟨.error (.stateError "Transaction is not begun"),
              { mutations := [⟨.insert, "citizens", ["email"], [["a"]]⟩] }, true, []⟩) ∧
      (({ mutations := [⟨.insert, "citizens", ["email"], [["a"]]⟩] } : Transaction).mutations
          ≠ [] →
        (Transaction.commit { mutations := [⟨.insert, "citizens", ["email"], [["a"]]⟩] }
            true {} (.ok "DEADBEEF") (.ok 9)).res = .ok 9 ∧
        (Transaction.commit { mutations := [⟨.insert, "citizens", ["email"], [["a"]]⟩] }
            true {} (.ok "DEADBEEF") (.ok 9)).txn.committed = some 9 ∧
        (Transaction.commit { mutations := [⟨.insert, "citizens", ["email"], [["a"]]⟩] }
            true {} (.ok "DEADBEEF") (.ok 9)).requests
          = [.beginTxn,
              .commitReq [⟨.insert, "citizens", ["email"], [["a"]]⟩] "DEADBEEF"
                (Transaction.commit_request_options
                  { mutations := [⟨.insert, "citizens", ["email"], [["a"]]⟩] } {})])) :=
  ⟨rfl, rfl, rfl,
    commit_not_begun_behaviour { mutations := [⟨.insert, "citizens", ["email"], [["a"]]⟩] }
      true {} (.error "down") (.ok 9) "DEADBEEF" 9 rfl rfl rfl⟩

/-- C3 counterexample: a `commit()` call whose per-call options carry the
request tag tag-1 sends an outbound commit request whose request-tag field
is cleared, not passed through unchanged. -/
theorem commit_clears_request_tag :
    (Transaction.commit
        { transaction_id := some "DEADBEEF", transaction_tag := some "transaction-tag" }
        true { request_tag := some "tag-1" } (.ok "x") (.ok 5)).requests.map req_request_tag
      ≠ [some (some "tag-1")] := by
  decide

/-- C3 amended: a transaction tag set on the transaction is force-applied
to the tag field of every outbound request, overriding any caller-supplied
inline transaction tag; a per-call request tag passes through unchanged for
execute_update and batch_update, while `commit()` clears it. -/
theorem transaction_tag_forced_on_requests (t : Transaction) (tag : String)
    (o : RequestOptions) (sql : String) (stmts : List Statement)
    (b1 : Except String Nat) (b2 : Except String ExecuteBatchDmlResponse)
    (attached : Bool) (bb : Except String String) (bc : Except String Nat)
    (i : String) (h1 : t.committed = none) (h2 : t.rolled_back = false)
    (htag : t.transaction_tag = some tag) (hid : t.transaction_id = some i) :
    (t.execute_update sql o b1).requests.map req_options
      = [some { o with transaction_tag := some tag }] ∧
    (t.batch_update stmts o b2).requests.map req_options
      = [some { o with transaction_tag := some tag }] ∧
    (t.commit attached o bb bc).requests.map req_options
      = [some { o with transaction_tag := some tag, request_tag := none }] := by
  have hcs := check_state_eq_none t h1 h2
  refine ⟨?_, ?_, ?_⟩
  · cases b1 <;>
      simp [Transaction.execute_update, hcs, req_options,
        Transaction.apply_transaction_tag, htag]
  · cases b2 <;>
      simp [Transaction.batch_update, hcs, req_options,
        Transaction.apply_transaction_tag, htag]
  · cases bc <;>
      simp [Transaction.commit, hcs, hid, Transaction.commit_rpc, req_options,
        Transaction.commit_request_options, Transaction.apply_transaction_tag, htag]

/-- C3 amended witness: with the transaction tag set, all three call kinds
carry it in their outbound options; the per-call request tag tag-1 survives
on the statement-execution requests and is cleared on the commit request. -/
theorem transaction_tag_forced_on_requests_witness :
    ({ transaction_id := some "DEADBEEF", transaction_tag := some "transaction-tag" }
        : Transaction).committed = none ∧
    ({ transaction_id := some "DEADBEEF", transaction_tag := some "transaction-tag" }
        : Transaction).rolled_back = false ∧
    ({ transaction_id := some "DEADBEEF", transaction_tag := some "transaction-tag" }
        : Transaction).transaction_tag = some "transaction-tag" ∧
    ({ transaction_id := some "DEADBEEF", transaction_tag := some "transaction-tag" }
        : Transaction).transaction_id = some "DEADBEEF" ∧
    ((Transaction.execute_update
          { transaction_id := some "DEADBEEF", transaction_tag := some "transaction-tag" }
          "UPDATE citizens SET age = 32" { request_tag := some "tag-1" }
          (.ok 1)).requests.map req_options
        = [some { ({ request_tag := some "tag-1" } : RequestOptions) with
              transaction_tag := some "transaction-tag" }] ∧
      (Transaction.batch_update
          { transaction_id := some "DEADBEEF", transaction_tag := some "transaction-tag" }
          [⟨"DELETE FROM citizens", [], []⟩] { request_tag := some "tag-1" }
          (.ok ⟨0, [⟨⟨1⟩⟩]⟩)).requests.map req_options
        = [some { ({ request_tag := some "tag-1" } : RequestOptions) with
              transaction_tag := some "transaction-tag" }] ∧
      (Transaction.commit
          { transaction_id := some "DEADBEEF", transaction_tag := some "transaction-tag" }
          true { request_tag := some "tag-1" } (.ok "x") (.ok 5)).requests.map req_options
        = [some { ({ request_tag := some "tag-1" } : RequestOptions) with
              transaction_tag := some "transaction-tag", request_tag := none }]) :=
  ⟨rfl, rfl, rfl, rfl,
    transaction_tag_forced_on_requests
      { transaction_id := some "DEADBEEF", transaction_tag := some "transaction-tag" }
      "transaction-tag" { request_tag := some "tag-1" } "UPDATE citizens SET age = 32"
      [⟨"DELETE FROM citizens", [], []⟩] (.ok 1) (.ok ⟨0, [⟨⟨1⟩⟩]⟩) true (.ok "x")
      (.ok 5) "DEADBEEF" rfl rfl rfl rfl⟩

/-- C4: when the backend answers a batch of statements with a response
reporting failure at 0-based statement index k, `batch_update` returns that
non-success status paired with exactly the first k affected-row counts. -/
theorem batch_update_failure_row_counts (t : Transaction)
    (stmts : List Statement) (o : RequestOptions) (counts : List Nat)
    (k ec : Nat) (h1 : t.committed = none) (h2 : t.rolled_back = false)
    (hlen : counts.length = stmts.length) (hk : k < stmts.length)
    (hec : ec ≠ 0) :
    (t.batch_update stmts o (.ok (batchFailureResponse ec counts k))).res
      = .ok (ec, counts.take k) ∧ (counts.take k).length = k ∧ ec ≠ 0 := by
  have hcs := check_state_eq_none t h1 h2
  refine ⟨?_, ?_, hec⟩
  · simp [Transaction.batch_update, hcs, batchFailureResponse,
      List.map_map, Function.comp_def]
  · simp [List.length_take]
    omega

/-- C4 witness: a 3-statement batch where the backend reports failure at
the 2nd statement yields status 400 and the row-count list of length 1. -/
theorem batch_update_failure_row_counts_witness :
    ({} : Transaction).committed = none ∧
    ({} : Transaction).rolled_back = false ∧
    ([1, 2, 3] : List Nat).length
        = ([⟨"INSERT", [], []⟩, ⟨"UPDATE", [], []⟩, ⟨"DELETE", [], []⟩]
            : List Statement).length ∧
    1 < ([⟨"INSERT", [], []⟩, ⟨"UPDATE", [], []⟩, ⟨"DELETE", [], []⟩]
        : List Statement).length ∧
    (400 : Nat) ≠ 0 ∧
    ((Transaction.batch_update {}
          [⟨"INSERT", [], []⟩, ⟨"UPDATE", [], []⟩, ⟨"DELETE", [], []⟩] {}
          (.ok (batchFailureResponse 400 [1, 2, 3] 1))).res
        = .ok (400, ([1, 2, 3] : List Nat).take 1) ∧
      (([1, 2, 3] : List Nat).take 1).length = 1 ∧ (400 : Nat) ≠ 0) :=
  ⟨rfl, rfl, rfl, by decide, by decide,
    batch_update_failure_row_counts {}
      [⟨"INSERT", [], []⟩, ⟨"UPDATE", [], []⟩, ⟨"DELETE", [], []⟩] {} [1, 2, 3]
      1 400 rfl rfl rfl (by decide) (by decide)⟩

/-- C8: on a begun transaction, `commit()` detaches the transaction from
its owning Session exactly when the commit RPC succeeds — on success it
records the commit timestamp and clears the Session reference; on failure
the transaction is unchanged and the Session still references it. -/
theorem commit_detaches_iff_success (t : Transaction) (attached : Bool)
    (o : RequestOptions) (bb : Except String String) (i : String) (ts : Nat)
    (e : String) (h1 : t.committed = none) (h2 : t.rolled_back = false)
    (hid : t.transaction_id = some i) :
    ((t.commit attached o bb (.ok ts)).res = .ok ts ∧
      (t.commit attached o bb (.ok ts)).txn.committed = some ts ∧
      (t.commit attached o bb (.ok ts)).attached = false) ∧
    ((t.commit attached o bb (.error e)).res = .error (.rpcError e) ∧
      (t.commit attached o bb (.error e)).txn = t ∧
      (t.commit attached o bb (.error e)).attached = attached) := by
  have hcs := check_state_eq_none t h1 h2
  simp [Transaction.commit, hcs, hid, Transaction.commit_rpc]

/-- C8 witness: a succeeding commit records the timestamp and detaches; a
failing commit leaves the transaction attached and uncommitted. -/
theorem commit_detaches_iff_success_witness :
    ({ transaction_id := some "DEADBEEF" } : Transaction).committed = none ∧
    ({ transaction_id := some "DEADBEEF" } : Transaction).rolled_back = false ∧
    ({ transaction_id := some "DEADBEEF" } : Transaction).transaction_id
        = some "DEADBEEF" ∧
    (((Transaction.commit { transaction_id := some "DEADBEEF" } true {}
          (.ok "x") (.ok 3)).res = .ok 3 ∧
      (Transaction.commit { transaction_id := some "DEADBEEF" } true {}
          (.ok "x") (.ok 3)).txn.committed = some 3 ∧
      (Transaction.commit { transaction_id := some "DEADBEEF" } true {}
          (.ok "x") (.ok 3)).attached = false) ∧
      ((Transaction.commit { transaction_id := some "DEADBEEF" } true {}
          (.ok "x") (.error "boom")).res = .error (.rpcError "boom") ∧
      (Transaction.commit { transaction_id := some "DEADBEEF" } true {}
          (.ok "x") (.error "boom")).txn = { transaction_id := some "DEADBEEF" } ∧
      (Transaction.commit { transaction_id := some "DEADBEEF" } true {}
          (.ok "x") (.error "boom")).attached = true)) :=
  ⟨rfl, rfl, rfl,
    commit_detaches_iff_success { transaction_id := some "DEADBEEF" } true {}
      (.ok "x") "DEADBEEF" 3 "boom" rfl rfl rfl⟩

/-- C9: appending mutations m1, ..., mn in order through the write
operations and then committing sends exactly the initial buffer followed by
m1, ..., mn, in order, with no reordering, deduplication or omission, for a
succeeding and for a failing commit RPC alike. -/
theorem commit_sends_mutations_in_order (t : Transaction) (ms : List Mutation)
    (attached : Bool) (o : RequestOptions) (bb : Except String String)
    (i : String) (bc : Except String Nat) (h1 : t.committed = none)
    (h2 : t.rolled_back = false) (hid : t.transaction_id = some i) :
    ((Transaction.apply_mutations t ms).commit attached o bb bc).requests
      = [.commitReq (t.mutations ++ ms) i (t.commit_request_options o)] := by
  rw [apply_mutations_live t ms h1 h2]
  cases bc <;>
    simp [Transaction.commit, Transaction.check_state, h1, h2, hid,
      Transaction.commit_rpc, Transaction.commit_request_options,
      Transaction.apply_transaction_tag]

/-- C9 witness: three mutations appended in order to a begun transaction
are sent by commit exactly in that order. -/
theorem commit_sends_mutations_in_order_witness :
    ({ transaction_id := some "DEADBEEF" } : Transaction).committed = none ∧
    ({ transaction_id := some "DEADBEEF" } : Transaction).rolled_back = false ∧
    ({ transaction_id := some "DEADBEEF" } : Transaction).transaction_id
        = some "DEADBEEF" ∧
    ((Transaction.apply_mutations { transaction_id := some "DEADBEEF" }
          [⟨.insert, "citizens", ["email"], [["a"]]⟩,
           ⟨.update, "citizens", ["email"], [["b"]]⟩,
           ⟨.delete, "citizens", [], [["0"]]⟩]).commit true {} (.ok "x")
        (.ok 3)).requests
      = [.commitReq
          (({ transaction_id := some "DEADBEEF" } : Transaction).mutations ++
            [⟨.insert, "citizens", ["email"], [["a"]]⟩,
             ⟨.update, "citizens", ["email"], [["b"]]⟩,
             ⟨.delete, "citizens", [], [["0"]]⟩]) "DEADBEEF"
          (Transaction.commit_request_options
            { transaction_id := some "DEADBEEF" } {})] :=
  ⟨rfl, rfl, rfl,
    commit_sends_mutations_in_order { transaction_id := some "DEADBEEF" }
      [⟨.insert, "citizens", ["email"], [["a"]]⟩,
       ⟨.update, "citizens", ["email"], [["b"]]⟩,
       ⟨.delete, "citizens", [], [["0"]]⟩] true {} (.ok "x") "DEADBEEF" (.ok 3)
      rfl rfl rfl⟩

/-- C10: when a transactional scope ends abnormally before `begin()`
assigned an identity, the scope-exit rollback marks the transaction rolled
back, issues no commit or rollback request, leaves the committed result
unset, and leaves every appended mutation in the buffer. -/
theorem scope_abnormal_exit_before_begin (t : Transaction) (ms : List Mutation)
    (o : RequestOptions) (bb : Except String String) (bc : Except String Nat)
    (br : Except String Unit) (h1 : t.committed = none)
    (h2 : t.rolled_back = false) (hid : t.transaction_id = none) :
    (scope_exit (Transaction.apply_mutations t ms) true o true bb bc br).txn.rolled_back
        = true ∧
    (scope_exit (Transaction.apply_mutations t ms) true o true bb bc br).requests = [] ∧
    (scope_exit (Transaction.apply_mutations t ms) true o true bb bc br).txn.committed
        = none ∧
    (scope_exit (Transaction.apply_mutations t ms) true o true bb bc br).txn.mutations
        = t.mutations ++ ms := by
  rw [apply_mutations_live t ms h1 h2]
  simp [scope_exit, Transaction.rollback, Transaction.check_state, h1, h2, hid]

/-- C10 witness: a scope that buffers one insert and fails before any begin
rolls back locally with no request, keeping the buffered mutation. -/
theorem scope_abnormal_exit_before_begin_witness :
    ({} : Transaction).committed = none ∧
    ({} : Transaction).rolled_back = false ∧
    ({} : Transaction).transaction_id = none ∧
    ((scope_exit
          (Transaction.apply_mutations {}
            [⟨.insert, "citizens", ["email"], [["a"]]⟩]) true {} true (.ok "x")
          (.ok 3) (.ok ())).txn.rolled_back = true ∧
      (scope_exit
          (Transaction.apply_mutations {}
            [⟨.insert, "citizens", ["email"], [["a"]]⟩]) true {} true (.ok "x")
          (.ok 3) (.ok ())).requests = [] ∧
      (scope_exit
          (Transaction.apply_mutations {}
            [⟨.insert, "citizens", ["email"], [["a"]]⟩]) true {} true (.ok "x")
          (.ok 3) (.ok ())).txn.committed = none ∧
      (scope_exit
          (Transaction.apply_mutations {}
            [⟨.insert, "citizens", ["email"], [["a"]]⟩]) true {} true (.ok "x")
          (.ok 3) (.ok ())).txn.mutations
        = ({} : Transaction).mutations ++ [⟨.insert, "citizens", ["email"], [["a"]]⟩]) :=
  ⟨rfl, rfl, rfl,
    scope_abnormal_exit_before_begin {} [⟨.insert, "citizens", ["email"], [["a"]]⟩]
      {} (.ok "x") (.ok 3) (.ok ()) rfl rfl rfl⟩
